import Mathlib

/-!
Shallow embedding of `bpt.py`, a loader for Medicare Advantage Bid Pricing
Tool data.  Pandas dataframes are modelled as `Table` (column labels plus a
row-major grid of optional string cells, `none` standing for NaN); the
filesystem effects visible to the code — the `os.walk` of the queried year
directory and opening zip archives by path — are modelled by `FSys`.  Parsing
of delimited text (an external-library concern) is abstracted: each archive
member carries the table its bytes parse to.  Python exceptions are modelled
by the `Err` sum; fallible functions return `Except Err _`.
-/

/-- A pandas DataFrame: column labels and row-major cells, `none` = NaN. -/
structure Table where
  cols : List String
  rows : List (List (Option String))
deriving DecidableEq, Repr

/-- A member of a zip archive: its name and the table its content parses to
(text parsing itself is outside the modelled code). -/
structure Member where
  name : String
  parsed : Table
deriving DecidableEq, Repr

/-- A zip archive: `namelist()` order of members. -/
structure Archive where
  members : List Member
deriving DecidableEq, Repr

/-- The filesystem effects the code can observe for one queried directory:
whether the directory exists, the `(root, files)` pairs yielded by
`os.walk(dir_to_query)` in walk order (the code ignores the roots), and the
archives openable at a given path (`none` models `FileNotFoundError`). -/
structure FSys where
  rootExists : Bool
  walk : List (String × List String)
  zips : List (String × Archive)
deriving DecidableEq, Repr

/-- Python exceptions raised by the code, plus (unused by the code) the
explicit error names from the specification's taxonomy. -/
inductive Err where
  | pathNotFound
  | fileNotFound
  | unboundLocal
  | keyErr
  | typeErr
  | valueErr
  | indexErr
  | noMatchFound
  | emptyResult
  | ambiguousDictionarySchema
  | keyColumnMissing
deriving DecidableEq, Repr

/-- `zipfile.ZipFile(p, "r")`: the archive at path `p`, if one exists. -/
def FSys.openZip (fs : FSys) (p : String) : Option Archive :=
  (fs.zips.find? (fun e => e.1 == p)).map (fun e => e.2)

/-- Contiguous-sublist test, used to model Python substring containment. -/
def isSubList (needle : List Char) : List Char → Bool
  | [] => needle.isEmpty
  | c :: cs => needle.isPrefixOf (c :: cs) || isSubList needle cs

/-- Python `needle in hay` / `re.search` with a literal pattern: substring
containment (the tags used contain no regex metacharacters). -/
def pyIn (needle hay : String) : Bool :=
  isSubList needle.data hay.data

/-- Python `s.endswith(suffix)`, via lists so that it evaluates in the
kernel. -/
def pyEndsWith (s suffix : String) : Bool :=
  suffix.data.isSuffixOf s.data

/-- `os.path.join(dir, file)` for a relative `file`. -/
def pyJoin (dir file : String) : String :=
  if pyEndsWith dir "/" then dir ++ file else dir ++ "/" ++ file

/-- `any(x in dir_to_query for x in ['2014', '2015'])`. -/
def legacyDir (dir : String) : Bool :=
  pyIn "2014" dir || pyIn "2015" dir

/-- All file names yielded by the walk, in iteration order (the code ignores
the per-entry roots). -/
def walkFiles (fs : FSys) : List String :=
  (fs.walk.map (fun e => e.2)).flatten

/-- Python `str.split(sep)` for a one-character separator. -/
def pySplitOn (sep : Char) : List Char → List (List Char)
  | [] => [[]]
  | c :: cs =>
    if c = sep then [] :: pySplitOn sep cs
    else
      match pySplitOn sep cs with
      | [] => [[c]]
      | s :: rest => (c :: s) :: rest

/-- `yeardir.split('/')[-2]`: Python negative indexing raises `IndexError`
when the split has fewer than two segments. -/
def bptYear (yeardir : String) : Except Err String :=
  let segs := pySplitOn '/' yeardir.data
  if 2 ≤ segs.length then .ok (String.mk (segs.getD (segs.length - 2) []))
  else .error .indexErr

/-- Inner loop of `load_data_dict`: `for zippedObj in zippedFile.namelist():
if zippedObj.endswith('.csv'): data_dict = pd.read_csv(...)` — the loop
variable keeps only the last `.csv` member. -/
def ddMemberScan (acc : Option Table) : List Member → Option Table
  | [] => acc
  | m :: ms => ddMemberScan (if pyEndsWith m.name ".csv" then some m.parsed else acc) ms

/-- File loop of `load_data_dict`: for each walked file containing
"dictionary" whose joined path ends in ".zip", open it (raising if the path
does not exist) and scan its members. -/
def ddFold (fs : FSys) (dir : String) : List String → Option Table → Except Err (Option Table)
  | [], acc => .ok acc
  | f :: rest, acc =>
    if pyIn "dictionary" f then
      if pyEndsWith (pyJoin dir f) ".zip" then
        match fs.openZip (pyJoin dir f) with
        | none => .error .fileNotFound
        | some z => ddFold fs dir rest (ddMemberScan acc z.members)
      else ddFold fs dir rest acc
    else ddFold fs dir rest acc

/-- `load_data_dict`: asserts the directory exists, walks it keeping the last
`.csv` member of the last matching archive; an unassigned `data_dict` at
`return` is Python's `UnboundLocalError`. -/
def load_data_dict (fs : FSys) (dir : String) : Except Err Table :=
  if fs.rootExists then
    match ddFold fs dir (walkFiles fs) none with
    | .ok (some t) => .ok t
    | .ok none => .error .unboundLocal
    | .error e => .error e
  else .error .pathNotFound

/-- Archives considered by `load_sheet`: walked files filtered by `'_ma' in d`
for the two hard-coded legacy years, else by `worksheet in d`. -/
def sheetCandidates (fs : FSys) (dir tag : String) : List String :=
  (walkFiles fs).filter (fun d => if legacyDir dir then pyIn "_ma" d else pyIn tag d)

/-- Member loop of `load_sheet`: `if worksheet in name: df = pd.read_csv(...)`
— keeps the last matching member. -/
def memberScan (tag : String) (acc : Option Table) : List Member → Option Table
  | [] => acc
  | m :: ms => memberScan tag (if pyIn tag m.name then some m.parsed else acc) ms

/-- Archive loop of `load_sheet`: open each candidate (raising if the joined
path does not exist) and scan members. -/
def sheetFold (fs : FSys) (dir tag : String) : List String → Option Table → Except Err (Option Table)
  | [], acc => .ok acc
  | d :: ds, acc =>
    match fs.openZip (pyJoin dir d) with
    | none => .error .fileNotFound
    | some z => sheetFold fs dir tag ds (memberScan tag acc z.members)

/-- `load_sheet`: the last member containing the tag inside the last candidate
archive; an unassigned `df` at `return` is Python's `UnboundLocalError`. -/
def load_sheet (fs : FSys) (dir tag : String) : Except Err Table :=
  match sheetFold fs dir tag (sheetCandidates fs dir tag) none with
  | .ok (some t) => .ok t
  | .ok none => .error .unboundLocal
  | .error e => .error e

/-- Member loop of `load_county_data`: for legacy years only members containing
the literal "ma_5" and ending in ".txt" are collected, else every ".txt"
member; collected tables are appended to the `county` list. -/
def countyMemberStep (legacy : Bool) (acc : List Table) (m : Member) : List Table :=
  if legacy then
    if pyIn "ma_5" m.name then
      if pyEndsWith m.name ".txt" then acc ++ [m.parsed] else acc
    else acc
  else
    if pyEndsWith m.name ".txt" then acc ++ [m.parsed] else acc

/-- Archive loop of `load_county_data` over the files matching the tag. -/
def countyFold (fs : FSys) (dir : String) : List String → List Table → Except Err (List Table)
  | [], acc => .ok acc
  | f :: rest, acc =>
    match fs.openZip (pyJoin dir f) with
    | none => .error .fileNotFound
    | some z => countyFold fs dir rest (z.members.foldl (countyMemberStep (legacyDir dir)) acc)

/-- The `county` list accumulated by `load_county_data` before concatenation. -/
def countyParts (fs : FSys) (dir tag : String) : Except Err (List Table) :=
  countyFold fs dir ((walkFiles fs).filter (fun o => pyIn tag o)) []

/-- Rows padded to `n` with all-NaN rows, as pandas index alignment does for a
default `RangeIndex`. -/
def padRows (t : Table) (n : Nat) : List (List (Option String)) :=
  t.rows ++ List.replicate (n - t.rows.length) (List.replicate t.cols.length none)

/-- `pd.concat([a, b], axis=1)` on default-`RangeIndex` frames: columns side by
side, rows aligned positionally, the shorter frame padded with NaN. -/
def Table.hconcatPair (a b : Table) : Table :=
  let n := max a.rows.length b.rows.length
  ⟨a.cols ++ b.cols, List.zipWith (fun r s => r ++ s) (padRows a n) (padRows b n)⟩

/-- `load_county_data`: collect the parts, then `pd.concat(county, axis=1)`
(`ValueError` on an empty list). -/
def load_county_data (fs : FSys) (dir tag : String) : Except Err Table :=
  match countyParts fs dir tag with
  | .error e => .error e
  | .ok [] => .error .valueErr
  | .ok (t :: ts) => .ok (ts.foldl Table.hconcatPair t)

/-- Index of the first column with the given label (`df[c]` lookup). -/
def colIdx (cols : List String) (c : String) : Option Nat :=
  List.findIdx? (fun x => x == c) cols

/-- The values of column `i`, a missing cell reading as NaN. -/
def colValsAt (t : Table) (i : Nat) : List (Option String) :=
  t.rows.map (fun r => r.getD i none)

/-- `(index, label)` of the columns whose header contains "FIELD"
(`data_dict.columns.str.contains(pat='FIELD')`). -/
def fieldCols (dd : Table) : List (Nat × String) :=
  dd.cols.enum.filter (fun p => pyIn "FIELD" p.2)

/-- `data_dict.iloc[:, mask].squeeze()` as seen by the subsequent `zip`:
with one selected column and several rows, the column's values; with one
column and one row, a scalar — `zip` then iterates a string cell's characters
and raises `TypeError` on a NaN float; otherwise, with a single row the row's
values (a `Series` over the selected columns), else the selected column
labels (iterating a DataFrame yields its column names). -/
def squeezeTarget (dd : Table) : Except Err (List (Option String)) :=
  match fieldCols dd with
  | [(i, _)] =>
    if dd.rows.length = 1 then
      match (dd.rows.getD 0 []).getD i none with
      | none => .error .typeErr
      | some s => .ok (s.data.map (fun ch => some (String.mk [ch])))
    else .ok (colValsAt dd i)
  | fcs =>
    if dd.rows.length = 1 then .ok (fcs.map (fun p => (dd.rows.getD 0 []).getD p.1 none))
    else .ok (fcs.map (fun p => some p.2))

/-- The pairs fed to `dict(zip(data_dict['NAME'], ...))`; `zip` truncates to
the shorter sequence. -/
def renamePairs (dd : Table) (i : Nat) (tgt : List (Option String)) :
    List (Option String × Option String) :=
  (colValsAt dd i).zip tgt

/-- `dict(zip(...))` lookup with last-key-wins insertion order. -/
def lastAssoc (c : String) : List (Option String × Option String) → Option (Option String)
  | [] => none
  | p :: ps =>
    match lastAssoc c ps with
    | some v => some v
    | none => if p.1 = some c then some p.2 else none

/-- `df.rename(columns=mapping)` applied to one label.  A NaN mapping value
would relabel the column to NaN in pandas; columns are modelled as strings, so
that branch keeps the label (no claim depends on NaN labels). -/
def renCol (pairs : List (Option String × Option String)) (c : String) : String :=
  match lastAssoc c pairs with
  | some (some w) => w
  | some none => c
  | none => c

/-- `replace_field_to_name`: `df.rename(columns=dict(zip(data_dict['NAME'],
data_dict.iloc[:, data_dict.columns.str.contains(pat='FIELD')].squeeze())))`.
A missing `NAME` column is a pandas `KeyError`. -/
def replace_field_to_name (data_dict df : Table) : Except Err Table :=
  match colIdx data_dict.cols "NAME" with
  | none => .error .keyErr
  | some i =>
    match squeezeTarget data_dict with
    | .error e => .error e
    | .ok tgt => .ok ⟨df.cols.map (renCol (renamePairs data_dict i tgt)), df.rows⟩

/-- `df.dropna(subset=[c])`: a missing column is a pandas `KeyError`; else
keep exactly the rows whose cell in column `c` is not NaN. -/
def dropnaSubset (c : String) (t : Table) : Except Err Table :=
  match colIdx t.cols c with
  | none => .error .keyErr
  | some i => .ok ⟨t.cols, t.rows.filter (fun r => (r.getD i none).isSome)⟩

/-- `data_loader`: `load_sheet`, then `replace_field_to_name`, then drop rows
with a missing key identifier. -/
def data_loader (fs : FSys) (dirpath tag : String) (data_dict : Table) : Except Err Table :=
  match load_sheet fs dirpath tag with
  | .error e => .error e
  | .ok df =>
    match replace_field_to_name data_dict df with
    | .error e => .error e
    | .ok renamed => dropnaSubset "BID ID (H-number, Plan ID, Segment ID)" renamed

/-- The `BPT` object: year label, dictionary, seven worksheet tables. -/
structure BPT where
  year : String
  data_dict : Table
  ma_1 : Table
  ma_2 : Table
  ma_3 : Table
  ma_4 : Table
  ma_5 : Table
  ma_6 : Table
  ma_7 : Table
deriving DecidableEq, Repr

/-- The seven worksheet tags loaded by the constructor, in order. -/
def sheetTags : List String :=
  ["ma_1", "ma_2", "ma_3", "ma_4", "ma_5", "ma_6", "ma_7"]

/-- `BPT.__init__`: year label, dictionary, then the seven worksheets via
`data_loader`; the first raised exception propagates and no object is
returned. -/
def mkBPT (fs : FSys) (yeardir : String) : Except Err BPT :=
  match bptYear yeardir with
  | .error e => .error e
  | .ok year =>
    match load_data_dict fs yeardir with
    | .error e => .error e
    | .ok dd =>
      match data_loader fs yeardir "ma_1" dd with
      | .error e => .error e
      | .ok m1 =>
        match data_loader fs yeardir "ma_2" dd with
        | .error e => .error e
        | .ok m2 =>
          match data_loader fs yeardir "ma_3" dd with
          | .error e => .error e
          | .ok m3 =>
            match data_loader fs yeardir "ma_4" dd with
            | .error e => .error e
            | .ok m4 =>
              match data_loader fs yeardir "ma_5" dd with
              | .error e => .error e
              | .ok m5 =>
                match data_loader fs yeardir "ma_6" dd with
                | .error e => .error e
                | .ok m6 =>
                  match data_loader fs yeardir "ma_7" dd with
                  | .error e => .error e
                  | .ok m7 => .ok ⟨year, dd, m1, m2, m3, m4, m5, m6, m7⟩

/-!  Concrete year-directory models used by witnesses and counterexamples. -/

/-- The key column the orchestrator filters on. -/
def bidCol : String := "BID ID (H-number, Plan ID, Segment ID)"

/-- A two-row data dictionary: codes `F1`, `F2` with one `FIELD` column. -/
def ddTable : Table :=
  ⟨["NAME", "FIELD_TITLE"],
   [[some "F1", some bidCol], [some "F2", some "Other Label"]]⟩

/-- A one-column worksheet part keyed by code `F1`. -/
def wsTable (v : String) : Table := ⟨["F1"], [[some v]]⟩

/-- The table `data_loader` yields from `wsTable v` under `ddTable`. -/
def bidT (v : String) : Table := ⟨[bidCol], [[some v]]⟩

/-- A complete non-legacy year directory `bpt/2020/` with a dictionary archive
and one archive per worksheet; the `ma_5` archive holds two text parts. -/
def fs5 : FSys :=
  ⟨true,
   [("bpt/2020/",
     ["bpt_dictionary.zip", "data_ma_1.zip", "data_ma_2.zip", "data_ma_3.zip",
      "data_ma_4.zip", "data_ma_5.zip", "data_ma_6.zip", "data_ma_7.zip"])],
   [("bpt/2020/bpt_dictionary.zip", ⟨[⟨"dict.csv", ddTable⟩]⟩),
    ("bpt/2020/data_ma_1.zip", ⟨[⟨"ma_1_data.txt", wsTable "A1"⟩]⟩),
    ("bpt/2020/data_ma_2.zip", ⟨[⟨"ma_2_data.txt", wsTable "A2"⟩]⟩),
    ("bpt/2020/data_ma_3.zip", ⟨[⟨"ma_3_data.txt", wsTable "A3"⟩]⟩),
    ("bpt/2020/data_ma_4.zip", ⟨[⟨"ma_4_data.txt", wsTable "A4"⟩]⟩),
    ("bpt/2020/data_ma_5.zip",
     ⟨[⟨"ma_5_part1.txt", wsTable "P1"⟩, ⟨"ma_5_part2.txt", wsTable "P2"⟩]⟩),
    ("bpt/2020/data_ma_6.zip", ⟨[⟨"ma_6_data.txt", wsTable "A6"⟩]⟩),
    ("bpt/2020/data_ma_7.zip", ⟨[⟨"ma_7_data.txt", wsTable "A7"⟩]⟩)]⟩

/-- The bundle `mkBPT` builds from `fs5`. -/
def bEx : BPT :=
  ⟨"2020", ddTable, bidT "A1", bidT "A2", bidT "A3", bidT "A4", bidT "P2",
   bidT "A6", bidT "A7"⟩

/-- A legacy year directory `bpt/2014/`: one archive named by the `_ma`
convention holding members for several worksheets. -/
def fsL : FSys :=
  ⟨true, [("bpt/2014/", ["bpt_2014_ma.zip"])],
   [("bpt/2014/bpt_2014_ma.zip",
     ⟨[⟨"ma_3_base.txt", wsTable "L3"⟩, ⟨"ma_1_base.txt", wsTable "L1"⟩]⟩)]⟩

/-- A year directory with no archive matching tag `ma_3`. -/
def fsN1 : FSys :=
  ⟨true, [("bpt/2020/", ["notes.txt", "data_ma_2.zip"])],
   [("bpt/2020/data_ma_2.zip", ⟨[⟨"ma_2_rates.txt", wsTable "X"⟩]⟩)]⟩

/-- A year directory whose `ma_2` archive has no member containing `ma_2`. -/
def fsN2 : FSys :=
  ⟨true, [("bpt/2020/", ["data_ma_2.zip"])],
   [("bpt/2020/data_ma_2.zip", ⟨[⟨"rates.txt", wsTable "X"⟩]⟩)]⟩

/-- A year directory whose benchmark archive holds three one-column parts. -/
def fsW : FSys :=
  ⟨true, [("bpt/2020/", ["data_ma_5.zip"])],
   [("bpt/2020/data_ma_5.zip",
     ⟨[⟨"ma_5_ca.txt", ⟨["CA"], [[some "1"]]⟩⟩,
       ⟨"ma_5_or.txt", ⟨["OR"], [[some "2"]]⟩⟩,
       ⟨"ma_5_wa.txt", ⟨["WA"], [[some "3"]]⟩⟩]⟩)]⟩

/-- A dictionary with two columns whose headers contain `FIELD`. -/
def dd2 : Table :=
  ⟨["NAME", "FIELD_A", "FIELD_B"],
   [[some "F1", some "Plan Name", some "X"], [some "F2", some "Region", some "Y"]]⟩

/-- A worksheet renamed under `dd2`. -/
def t7 : Table := ⟨["F1", "F2", "Other"], [[some "a", some "b", some "c"]]⟩

/-- A year directory whose `ma_1` sheet carries code `F3`, which the
dictionary does not map, so the key column never appears. -/
def fs8 : FSys :=
  ⟨true, [("bpt/2020/", ["data_ma_1.zip"])],
   [("bpt/2020/data_ma_1.zip", ⟨[⟨"ma_1_x.txt", ⟨["F3"], [[some "v"]]⟩⟩]⟩)]⟩

/-- A year directory whose `ma_1` sheet has a NaN key cell in its middle row. -/
def fs8b : FSys :=
  ⟨true, [("bpt/2020/", ["data_ma_1.zip"])],
   [("bpt/2020/data_ma_1.zip",
     ⟨[⟨"ma_1_x.txt", ⟨["F1"], [[some "keep"], [none], [some "keep2"]]⟩⟩]⟩)]⟩

/-- A year directory whose only dictionary archive sits in a subdirectory:
the walk lists it under root `bpt2/2019/sub`, and the only openable zip path
is `bpt2/2019/sub/bpt_dictionary.zip`. -/
def fs9 : FSys :=
  ⟨true, [("bpt2/2019", []), ("bpt2/2019/sub", ["bpt_dictionary.zip"])],
   [("bpt2/2019/sub/bpt_dictionary.zip", ⟨[⟨"dict.csv", ddTable⟩]⟩)]⟩

/-!  General lemmas about the embedded loaders. -/

/-- An `Except` decidable equality, for evaluating loader results. -/
instance exceptDecEq {e a : Type} [DecidableEq e] [DecidableEq a] :
    DecidableEq (Except e a) := fun x y =>
  match x, y with
  | .ok u, .ok v =>
    if h : u = v then isTrue (by rw [h]) else
      isFalse (by intro hc; injection hc; contradiction)
  | .ok _, .error _ => isFalse (fun hc => Except.noConfusion hc)
  | .error _, .ok _ => isFalse (fun hc => Except.noConfusion hc)
  | .error u, .error v =>
    if h : u = v then isTrue (by rw [h]) else
      isFalse (by intro hc; injection hc; contradiction)

theorem memberScan_some (tag : String) (ms : List Member) (acc : Option Table) (t : Table)
    (h : memberScan tag acc ms = some t) :
    (∃ m, m ∈ ms ∧ pyIn tag m.name = true ∧ m.parsed = t) ∨ acc = some t := by
  induction ms generalizing acc with
  | nil =>
    right
    simpa [memberScan] using h
  | cons m ms ih =>
    rw [memberScan] at h
    rcases ih _ h with ⟨m2, hm2, hpy, hp⟩ | hacc
    · exact Or.inl ⟨m2, List.mem_cons_of_mem _ hm2, hpy, hp⟩
    · cases hc : pyIn tag m.name with
      | true =>
        rw [hc] at hacc
        simp at hacc
        exact Or.inl ⟨m, List.mem_cons_self _ _, hc, hacc⟩
      | false =>
        rw [hc] at hacc
        simp at hacc
        exact Or.inr hacc

theorem sheetFold_some (fs : FSys) (dir tag : String) (ds : List String)
    (acc : Option Table) (t : Table)
    (h : sheetFold fs dir tag ds acc = .ok (some t)) :
    (∃ d, d ∈ ds ∧ ∃ z, fs.openZip (pyJoin dir d) = some z ∧
       ∃ m, m ∈ z.members ∧ pyIn tag m.name = true ∧ m.parsed = t) ∨ acc = some t := by
  induction ds generalizing acc with
  | nil =>
    right
    simpa [sheetFold] using h
  | cons d ds ih =>
    rw [sheetFold] at h
    cases hz : fs.openZip (pyJoin dir d) with
    | none =>
      rw [hz] at h
      exact absurd h (by simp)
    | some z =>
      rw [hz] at h
      rcases ih _ h with ⟨d2, hd2, rest⟩ | hacc
      · exact Or.inl ⟨d2, List.mem_cons_of_mem _ hd2, rest⟩
      · rcases memberScan_some tag z.members acc t hacc with ⟨m, hm, hpy, hp⟩ | hacc2
        · exact Or.inl ⟨d, List.mem_cons_self _ _, z, hz, m, hm, hpy, hp⟩
        · exact Or.inr hacc2

theorem hconcatPair_cols (a b : Table) :
    (Table.hconcatPair a b).cols = a.cols ++ b.cols := rfl

theorem hconcatPair_rows_length (a b : Table) :
    (Table.hconcatPair a b).rows.length = max a.rows.length b.rows.length := by
  simp [Table.hconcatPair, padRows, List.length_zipWith, List.length_append,
    List.length_replicate]

theorem lastAssoc_mem (c : String) (ps : List (Option String × Option String))
    (v : Option String) (h : lastAssoc c ps = some v) : (some c, v) ∈ ps := by
  induction ps with
  | nil => simp [lastAssoc] at h
  | cons p ps ih =>
    rw [lastAssoc] at h
    cases hl : lastAssoc c ps with
    | some w =>
      rw [hl] at h
      injection h with h
      exact List.mem_cons_of_mem _ (ih (h ▸ hl))
    | none =>
      rw [hl] at h
      by_cases hp : p.1 = some c
      · rw [if_pos hp] at h
        injection h with h
        cases p with
        | mk p1 p2 =>
          simp only at hp h
          rw [hp, h]
          exact List.mem_cons_self _ _
      · rw [if_neg hp] at h
        exact absurd h (by simp)

theorem lastAssoc_none (c : String) (ps : List (Option String × Option String))
    (h : lastAssoc c ps = none) : ∀ v, (some c, v) ∉ ps := by
  induction ps with
  | nil => simp
  | cons p ps ih =>
    intro v hv
    rw [lastAssoc] at h
    cases hl : lastAssoc c ps with
    | some w => rw [hl] at h; exact absurd h (by simp)
    | none =>
      rw [hl] at h
      rcases List.mem_cons.mp hv with he | hm
      · have hp : p.1 = some c := by rw [← he]
        rw [if_pos hp] at h
        exact absurd h (by simp)
      · exact ih hl v hm

theorem lastAssoc_of_mem_nodup (c : String) (ps : List (Option String × Option String))
    (v : Option String) (hnd : (ps.map Prod.fst).Nodup) (h : (some c, v) ∈ ps) :
    lastAssoc c ps = some v := by
  induction ps with
  | nil => simp at h
  | cons p ps ih =>
    rw [List.map_cons, List.nodup_cons] at hnd
    rcases List.mem_cons.mp h with he | hm
    · rw [lastAssoc]
      cases hl : lastAssoc c ps with
      | some w =>
        exfalso
        apply hnd.1
        have hw : (some c, w) ∈ ps := lastAssoc_mem c ps w hl
        have : p.1 = some c := by rw [← he]
        rw [this]
        exact List.mem_map_of_mem Prod.fst hw
      | none =>
        have hp : p.1 = some c := by rw [← he]
        rw [if_pos hp]
        rw [← he]
    · rw [lastAssoc, ih hnd.2 hm]

theorem pySplitOn_ne_nil (sep : Char) (s : List Char) : pySplitOn sep s ≠ [] := by
  induction s with
  | nil => simp [pySplitOn]
  | cons c cs ih =>
    rw [pySplitOn]
    by_cases hc : c = sep
    · simp [hc]
    · rw [if_neg hc]
      cases hs : pySplitOn sep cs with
      | nil => exact absurd hs ih
      | cons s rest => simp

theorem pySplitOn_no_sep (sep : Char) (s : List Char) (h : ∀ c ∈ s, c ≠ sep) :
    pySplitOn sep s = [s] := by
  induction s with
  | nil => rfl
  | cons c cs ih =>
    have hc : c ≠ sep := h c (List.mem_cons_self _ _)
    have ihs : pySplitOn sep cs = [cs] := ih (fun x hx => h x (List.mem_cons_of_mem _ hx))
    rw [pySplitOn, if_neg hc, ihs]

theorem pySplitOn_append (sep : Char) (a b : List Char) :
    pySplitOn sep (a ++ sep :: b) = pySplitOn sep a ++ pySplitOn sep b := by
  induction a with
  | nil => simp [pySplitOn]
  | cons c cs ih =>
    by_cases hc : c = sep
    · rw [List.cons_append, pySplitOn, if_pos hc, ih, pySplitOn, if_pos hc, List.cons_append]
    · rw [List.cons_append, pySplitOn, if_neg hc, ih]
      cases hs : pySplitOn sep cs with
      | nil => exact absurd hs (pySplitOn_ne_nil sep cs)
      | cons s rest =>
        rw [pySplitOn, if_neg hc, hs]
        simp

theorem getD_append_mid {α : Type} (xs : List α) (u : α) (ys : List α) (d : α) :
    (xs ++ u :: ys).getD xs.length d = u := by
  induction xs with
  | nil => rfl
  | cons x xs ih => simpa using ih


theorem mkBPT_ok_inv (fs : FSys) (yd : String) (b : BPT) (h : mkBPT fs yd = .ok b) :
    bptYear yd = .ok b.year ∧ load_data_dict fs yd = .ok b.data_dict ∧
    data_loader fs yd "ma_1" b.data_dict = .ok b.ma_1 ∧
    data_loader fs yd "ma_2" b.data_dict = .ok b.ma_2 ∧
    data_loader fs yd "ma_3" b.data_dict = .ok b.ma_3 ∧
    data_loader fs yd "ma_4" b.data_dict = .ok b.ma_4 ∧
    data_loader fs yd "ma_5" b.data_dict = .ok b.ma_5 ∧
    data_loader fs yd "ma_6" b.data_dict = .ok b.ma_6 ∧
    data_loader fs yd "ma_7" b.data_dict = .ok b.ma_7 := by
  rw [mkBPT] at h
  cases h0 : bptYear yd with
  | error e => rw [h0] at h; simp at h
  | ok year =>
  simp only [h0] at h
  cases h1 : load_data_dict fs yd with
  | error e => rw [h1] at h; simp at h
  | ok dd =>
  simp only [h1] at h
  cases h2 : data_loader fs yd "ma_1" dd with
  | error e => rw [h2] at h; simp at h
  | ok m1 =>
  simp only [h2] at h
  cases h3 : data_loader fs yd "ma_2" dd with
  | error e => rw [h3] at h; simp at h
  | ok m2 =>
  simp only [h3] at h
  cases h4 : data_loader fs yd "ma_3" dd with
  | error e => rw [h4] at h; simp at h
  | ok m3 =>
  simp only [h4] at h
  cases h5 : data_loader fs yd "ma_4" dd with
  | error e => rw [h5] at h; simp at h
  | ok m4 =>
  simp only [h5] at h
  cases h6 : data_loader fs yd "ma_5" dd with
  | error e => rw [h6] at h; simp at h
  | ok m5 =>
  simp only [h6] at h
  cases h7 : data_loader fs yd "ma_6" dd with
  | error e => rw [h7] at h; simp at h
  | ok m6 =>
  simp only [h7] at h
  cases h8 : data_loader fs yd "ma_7" dd with
  | error e => rw [h8] at h; simp at h
  | ok m7 =>
  simp only [h8] at h
  simp only [Except.ok.injEq] at h
  subst h
  exact ⟨rfl, rfl, h2, h3, h4, h5, h6, h7, h8⟩

theorem mkBPT_error_inv (fs : FSys) (yd : String) (e : Err) (h : mkBPT fs yd = .error e) :
    bptYear yd = .error e ∨ load_data_dict fs yd = .error e ∨
    ∃ dd tag, load_data_dict fs yd = .ok dd ∧ tag ∈ sheetTags ∧
      data_loader fs yd tag dd = .error e := by
  rw [mkBPT] at h
  cases h0 : bptYear yd with
  | error e0 =>
    rw [h0] at h
    simp only [Except.error.injEq] at h
    subst h
    exact Or.inl rfl
  | ok year =>
  simp only [h0] at h
  cases h1 : load_data_dict fs yd with
  | error e1 =>
    rw [h1] at h
    simp only [Except.error.injEq] at h
    subst h
    exact Or.inr (Or.inl rfl)
  | ok dd =>
  simp only [h1] at h
  cases h2 : data_loader fs yd "ma_1" dd with
  | error e2 =>
    rw [h2] at h
    simp only [Except.error.injEq] at h
    subst h
    exact Or.inr (Or.inr ⟨dd, "ma_1", rfl, by simp [sheetTags], h2⟩)
  | ok m1 =>
  simp only [h2] at h
  cases h3 : data_loader fs yd "ma_2" dd with
  | error e3 =>
    rw [h3] at h
    simp only [Except.error.injEq] at h
    subst h
    exact Or.inr (Or.inr ⟨dd, "ma_2", rfl, by simp [sheetTags], h3⟩)
  | ok m2 =>
  simp only [h3] at h
  cases h4 : data_loader fs yd "ma_3" dd with
  | error e4 =>
    rw [h4] at h
    simp only [Except.error.injEq] at h
    subst h
    exact Or.inr (Or.inr ⟨dd, "ma_3", rfl, by simp [sheetTags], h4⟩)
  | ok m3 =>
  simp only [h4] at h
  cases h5 : data_loader fs yd "ma_4" dd with
  | error e5 =>
    rw [h5] at h
    simp only [Except.error.injEq] at h
    subst h
    exact Or.inr (Or.inr ⟨dd, "ma_4", rfl, by simp [sheetTags], h5⟩)
  | ok m4 =>
  simp only [h5] at h
  cases h6 : data_loader fs yd "ma_5" dd with
  | error e6 =>
    rw [h6] at h
    simp only [Except.error.injEq] at h
    subst h
    exact Or.inr (Or.inr ⟨dd, "ma_5", rfl, by simp [sheetTags], h6⟩)
  | ok m5 =>
  simp only [h6] at h
  cases h7 : data_loader fs yd "ma_6" dd with
  | error e7 =>
    rw [h7] at h
    simp only [Except.error.injEq] at h
    subst h
    exact Or.inr (Or.inr ⟨dd, "ma_6", rfl, by simp [sheetTags], h7⟩)
  | ok m6 =>
  simp only [h7] at h
  cases h8 : data_loader fs yd "ma_7" dd with
  | error e8 =>
    rw [h8] at h
    simp only [Except.error.injEq] at h
    subst h
    exact Or.inr (Or.inr ⟨dd, "ma_7", rfl, by simp [sheetTags], h8⟩)
  | ok m7 =>
  simp only [h8] at h
  simp at h

/-!  Claim theorems. -/

/-- C1: in the constructed bundle the `ma_5` slot is produced by the same
`data_loader`/`load_sheet` path as the other six worksheets, not by
`load_county_data` (which `BPT.__init__` never calls): on a benchmark archive
holding two text parts, the bundle's `ma_5` is the renamed, filtered last part
only, and differs from the column-wise concatenation of the parts that
`load_county_data` returns on the same directory. -/
theorem claim_c1 :
    mkBPT fs5 "bpt/2020/" = .ok bEx ∧
    bEx.ma_5 = bidT "P2" ∧
    load_sheet fs5 "bpt/2020/" "ma_5" = .ok (wsTable "P2") ∧
    load_county_data fs5 "bpt/2020/" "ma_5" =
      .ok ⟨["F1", "F1"], [[some "P1", some "P2"]]⟩ ∧
    bEx.ma_5 ≠ ⟨["F1", "F1"], [[some "P1", some "P2"]]⟩ :=
  ⟨rfl, rfl, rfl, rfl, by decide⟩

/-- C2: on a year directory whose path contains a legacy marker (`2014` or
`2015`), `load_sheet` selects candidate archives by the fixed substring `_ma`
— the candidate list is the same for any two requested tags — and any table
it returns is the parse of a member whose name contains the requested tag,
found inside an archive whose name contains `_ma`. -/
theorem claim_c2 (fs : FSys) (dir tag tg2 : String) (t : Table)
    (hleg : legacyDir dir = true) (hok : load_sheet fs dir tag = .ok t) :
    sheetCandidates fs dir tag = sheetCandidates fs dir tg2 ∧
    ∃ d, d ∈ walkFiles fs ∧ pyIn "_ma" d = true ∧
      ∃ z, fs.openZip (pyJoin dir d) = some z ∧
        ∃ m, m ∈ z.members ∧ pyIn tag m.name = true ∧ m.parsed = t := by
  constructor
  · simp [sheetCandidates, hleg]
  · rw [load_sheet] at hok
    cases hsf : sheetFold fs dir tag (sheetCandidates fs dir tag) none with
    | error e => simp [hsf] at hok
    | ok o =>
      cases o with
      | none => simp [hsf] at hok
      | some u =>
        simp only [hsf, Except.ok.injEq] at hok
        subst hok
        rcases sheetFold_some fs dir tag _ none u hsf with
          ⟨d, hd, z, hz, m, hm, hpy, hp⟩ | habs
        · have hd2 := List.mem_filter.mp hd
          refine ⟨d, hd2.1, ?_, z, hz, m, hm, hpy, hp⟩
          simpa [hleg] using hd2.2
        · exact absurd habs (by simp)

/-- C2 witness: on the legacy directory `bpt/2014/`, the candidates for tags
`ma_3` and `ma_1` coincide, and the `ma_3` result comes from a member
containing `ma_3` inside the `_ma`-named archive. -/
theorem claim_c2_witness :
    sheetCandidates fsL "bpt/2014/" "ma_3" = sheetCandidates fsL "bpt/2014/" "ma_1" ∧
    ∃ d, d ∈ walkFiles fsL ∧ pyIn "_ma" d = true ∧
      ∃ z, fsL.openZip (pyJoin "bpt/2014/" d) = some z ∧
        ∃ m, m ∈ z.members ∧ pyIn "ma_3" m.name = true ∧ m.parsed = wsTable "L3" :=
  claim_c2 fsL "bpt/2014/" "ma_3" "ma_1" (wsTable "L3") rfl rfl

/-- C3: when no candidate archive matches the selection rule (`fsN1`, tag
`ma_3`) or no member of a matched archive contains the tag (`fsN2`, tag
`ma_2`), `load_sheet` fails with the `UnboundLocalError` of returning the
never-assigned `df`, not with the specification's `NoMatchFound`. -/
theorem claim_c3 :
    load_sheet fsN1 "bpt/2020/" "ma_3" = .error .unboundLocal ∧
    load_sheet fsN2 "bpt/2020/" "ma_2" = .error .unboundLocal ∧
    Err.unboundLocal ≠ Err.noMatchFound :=
  ⟨rfl, rfl, by decide⟩

/-- C4: bundle construction is all-or-nothing: an error result is the error
of a failing step (year parse, dictionary load, or one of the seven worksheet
loads), and a success carries in every slot exactly the table the
corresponding step produced — no partially populated bundle is exposed. -/
theorem claim_c4 (fs : FSys) (yd : String) :
    (∀ e, mkBPT fs yd = .error e →
      bptYear yd = .error e ∨ load_data_dict fs yd = .error e ∨
      ∃ dd tag, load_data_dict fs yd = .ok dd ∧ tag ∈ sheetTags ∧
        data_loader fs yd tag dd = .error e) ∧
    (∀ b, mkBPT fs yd = .ok b →
      bptYear yd = .ok b.year ∧ load_data_dict fs yd = .ok b.data_dict ∧
      data_loader fs yd "ma_1" b.data_dict = .ok b.ma_1 ∧
      data_loader fs yd "ma_2" b.data_dict = .ok b.ma_2 ∧
      data_loader fs yd "ma_3" b.data_dict = .ok b.ma_3 ∧
      data_loader fs yd "ma_4" b.data_dict = .ok b.ma_4 ∧
      data_loader fs yd "ma_5" b.data_dict = .ok b.ma_5 ∧
      data_loader fs yd "ma_6" b.data_dict = .ok b.ma_6 ∧
      data_loader fs yd "ma_7" b.data_dict = .ok b.ma_7) :=
  ⟨fun e h => mkBPT_error_inv fs yd e h, fun b h => mkBPT_ok_inv fs yd b h⟩

/-- C4 witness: the fully successful construction over `fs5` decomposes into
its eight steps. -/
theorem claim_c4_witness :
    bptYear "bpt/2020/" = .ok bEx.year ∧
    load_data_dict fs5 "bpt/2020/" = .ok bEx.data_dict ∧
    data_loader fs5 "bpt/2020/" "ma_1" bEx.data_dict = .ok bEx.ma_1 ∧
    data_loader fs5 "bpt/2020/" "ma_2" bEx.data_dict = .ok bEx.ma_2 ∧
    data_loader fs5 "bpt/2020/" "ma_3" bEx.data_dict = .ok bEx.ma_3 ∧
    data_loader fs5 "bpt/2020/" "ma_4" bEx.data_dict = .ok bEx.ma_4 ∧
    data_loader fs5 "bpt/2020/" "ma_5" bEx.data_dict = .ok bEx.ma_5 ∧
    data_loader fs5 "bpt/2020/" "ma_6" bEx.data_dict = .ok bEx.ma_6 ∧
    data_loader fs5 "bpt/2020/" "ma_7" bEx.data_dict = .ok bEx.ma_7 :=
  (claim_c4 fs5 "bpt/2020/").2 bEx rfl

/-- C7: on a dictionary with two `FIELD`-matching columns the renamer does not
fail with the specification's `AmbiguousDictionarySchema`: iterating the
unsqueezed frame yields its column labels, so worksheet codes are silently
renamed to the header strings `FIELD_A`, `FIELD_B`. -/
theorem claim_c7 :
    replace_field_to_name dd2 t7 =
      .ok ⟨["FIELD_A", "FIELD_B", "Other"], [[some "a", some "b", some "c"]]⟩ ∧
    replace_field_to_name dd2 t7 ≠ .error .ambiguousDictionarySchema :=
  ⟨rfl, by decide⟩

/-- C8: the orchestrator drops exactly the rows whose key cell is NaN
(`fs8b`), but when the key column is absent after renaming (`fs8`, whose
sheet code `F3` is not in the dictionary) it fails with the pandas `KeyError`
of `dropna(subset=...)`, not with the specification's `KeyColumnMissing`. -/
theorem claim_c8 :
    data_loader fs8b "bpt/2020/" "ma_1" ddTable =
      .ok ⟨[bidCol], [[some "keep"], [some "keep2"]]⟩ ∧
    data_loader fs8 "bpt/2020/" "ma_1" ddTable = .error .keyErr ∧
    Err.keyErr ≠ Err.keyColumnMissing :=
  ⟨rfl, rfl, by decide⟩

/-- C9: the walk of `fs9` does list the dictionary archive that lives in the
subdirectory, and that archive is openable at its real path, but
`load_data_dict` joins the file name onto the queried root, opens a
nonexistent path, and fails with `FileNotFoundError` instead of returning the
archive's parsed CSV member. -/
theorem claim_c9 :
    "bpt_dictionary.zip" ∈ walkFiles fs9 ∧
    fs9.openZip "bpt2/2019/sub/bpt_dictionary.zip" = some ⟨[⟨"dict.csv", ddTable⟩]⟩ ∧
    pyJoin "bpt2/2019" "bpt_dictionary.zip" = "bpt2/2019/bpt_dictionary.zip" ∧
    fs9.openZip "bpt2/2019/bpt_dictionary.zip" = none ∧
    load_data_dict fs9 "bpt2/2019" = .error .fileNotFound :=
  ⟨by decide, rfl, rfl, rfl, rfl⟩

/-- C5: when the county loader collects exactly three single-column text
parts of a common row count, the concatenation is column-wise: the result has
the three parts' columns in discovery order and the common row count. -/
theorem claim_c5 (fs : FSys) (dir : String) (t1 t2 t3 : Table)
    (c1 c2 c3 : String) (n : Nat)
    (hp : countyParts fs dir "ma_5" = .ok [t1, t2, t3])
    (h1 : t1.cols = [c1]) (h2 : t2.cols = [c2]) (h3 : t3.cols = [c3])
    (n1 : t1.rows.length = n) (n2 : t2.rows.length = n) (n3 : t3.rows.length = n) :
    ∃ u, load_county_data fs dir "ma_5" = .ok u ∧
      u.cols = [c1, c2, c3] ∧ u.rows.length = n := by
  refine ⟨Table.hconcatPair (Table.hconcatPair t1 t2) t3, ?_, ?_, ?_⟩
  · rw [load_county_data, hp]
    rfl
  · rw [hconcatPair_cols, hconcatPair_cols, h1, h2, h3]
    rfl
  · rw [hconcatPair_rows_length, hconcatPair_rows_length, n1, n2, n3]
    simp

/-- C5 witness: three one-column, one-row parts in the `fsW` benchmark
archive concatenate to a three-column, one-row table. -/
theorem claim_c5_witness :
    ∃ u, load_county_data fsW "bpt/2020/" "ma_5" = .ok u ∧
      u.cols = ["CA", "OR", "WA"] ∧ u.rows.length = 1 :=
  claim_c5 fsW "bpt/2020/" ⟨["CA"], [[some "1"]]⟩ ⟨["OR"], [[some "2"]]⟩
    ⟨["WA"], [[some "3"]]⟩ "CA" "OR" "WA" 1 rfl rfl rfl rfl rfl rfl rfl

/-- C6: with a `NAME` column, a uniquely determined squeeze target, distinct
codes and labels present, the renamer succeeds, leaves the rows unchanged,
maps each column through the dictionary pairs, renaming a column that equals
a code to that code's label and leaving a column matching no code unchanged. -/
theorem claim_c6 (dd t : Table) (i : Nat) (tgt : List (Option String))
    (hi : colIdx dd.cols "NAME" = some i) (hsq : squeezeTarget dd = .ok tgt)
    (hnd : ((renamePairs dd i tgt).map Prod.fst).Nodup)
    (hvs : ∀ p ∈ renamePairs dd i tgt, p.2.isSome = true) :
    ∃ u, replace_field_to_name dd t = .ok u ∧ u.rows = t.rows ∧
      u.cols = t.cols.map (renCol (renamePairs dd i tgt)) ∧
      (∀ c w, (some c, some w) ∈ renamePairs dd i tgt →
        renCol (renamePairs dd i tgt) c = w) ∧
      (∀ c, (¬ ∃ v, (some c, v) ∈ renamePairs dd i tgt) →
        renCol (renamePairs dd i tgt) c = c) := by
  refine ⟨⟨t.cols.map (renCol (renamePairs dd i tgt)), t.rows⟩, ?_, rfl, rfl, ?_, ?_⟩
  · rw [replace_field_to_name, hi, hsq]
  · intro c w hmem
    rw [renCol, lastAssoc_of_mem_nodup c _ (some w) hnd hmem]
  · intro c hno
    rw [renCol]
    cases hl : lastAssoc c (renamePairs dd i tgt) with
    | none => rfl
    | some v => exact absurd ⟨v, lastAssoc_mem c _ v hl⟩ hno

/-- C6 witness: under `ddTable` the worksheet columns `F1`, `F2` are renamed
to their labels and `Other` is untouched. -/
theorem claim_c6_witness :
    ∃ u, replace_field_to_name ddTable ⟨["F1", "F2", "Other"], [[some "x", some "y", some "z"]]⟩ = .ok u ∧
      u.rows = [[some "x", some "y", some "z"]] ∧
      u.cols = ["F1", "F2", "Other"].map
        (renCol (renamePairs ddTable 0 [some bidCol, some "Other Label"])) ∧
      (∀ c w, (some c, some w) ∈ renamePairs ddTable 0 [some bidCol, some "Other Label"] →
        renCol (renamePairs ddTable 0 [some bidCol, some "Other Label"]) c = w) ∧
      (∀ c, (¬ ∃ v, (some c, v) ∈ renamePairs ddTable 0 [some bidCol, some "Other Label"]) →
        renCol (renamePairs ddTable 0 [some bidCol, some "Other Label"]) c = c) :=
  claim_c6 ddTable ⟨["F1", "F2", "Other"], [[some "x", some "y", some "z"]]⟩ 0
    [some bidCol, some "Other Label"] rfl rfl (by decide) (by decide)

/-- C10: the bundle's year label is `split('/')[-2]` of the path: the
second-to-last segment.  With a trailing slash the label is the year
directory's own name; without one it is the name of the parent directory
(the last segment of the prefix before the final slash). -/
theorem claim_c10 (fs : FSys) (p a b : String) (bb : BPT)
    (ss : List (List Char)) (pn : List Char)
    (hb : ∀ ch ∈ b.data, ch ≠ '/')
    (ha : pySplitOn '/' a.data = ss ++ [pn]) :
    (mkBPT fs p = .ok bb → bptYear p = .ok bb.year) ∧
    bptYear (a ++ "/" ++ b ++ "/") = .ok b ∧
    (b ≠ "" → bptYear (a ++ "/" ++ b) = .ok (String.mk pn)) := by
  have hslash : ("/" : String).data = ['/'] := rfl
  have hmk : String.mk b.data = b := by cases b; rfl
  refine ⟨fun h => (mkBPT_ok_inv fs p bb h).1, ?_, fun _ => ?_⟩
  · have hd : (a ++ "/" ++ b ++ "/").data = a.data ++ '/' :: (b.data ++ ['/']) := by
      simp [String.data_append, hslash]
    have hsp : pySplitOn '/' (a ++ "/" ++ b ++ "/").data = (ss ++ [pn]) ++ [b.data, []] := by
      rw [hd, pySplitOn_append, ha]
      have hbd : b.data ++ ['/'] = b.data ++ '/' :: [] := rfl
      rw [hbd, pySplitOn_append, pySplitOn_no_sep '/' b.data hb]
      rfl
    simp only [bptYear]
    rw [hsp]
    have h2 : 2 ≤ ((ss ++ [pn]) ++ [b.data, []]).length := by simp
    rw [if_pos h2]
    have hlen : ((ss ++ [pn]) ++ [b.data, []]).length - 2 = (ss ++ [pn]).length := by simp
    rw [hlen]
    have hform : (ss ++ [pn]) ++ [b.data, []] = (ss ++ [pn]) ++ b.data :: [[]] := rfl
    rw [hform, getD_append_mid, hmk]
  · have hd2 : (a ++ "/" ++ b).data = a.data ++ '/' :: b.data := by
      simp [String.data_append, hslash]
    have hsp2 : pySplitOn '/' (a ++ "/" ++ b).data = (ss ++ [pn]) ++ [b.data] := by
      rw [hd2, pySplitOn_append, ha, pySplitOn_no_sep '/' b.data hb]
    simp only [bptYear]
    rw [hsp2]
    have h2 : 2 ≤ ((ss ++ [pn]) ++ [b.data]).length := by simp
    rw [if_pos h2]
    have hlen : ((ss ++ [pn]) ++ [b.data]).length - 2 = ss.length := by simp
    rw [hlen]
    have hform : (ss ++ [pn]) ++ [b.data] = ss ++ pn :: [b.data] := by
      simp
    rw [hform, getD_append_mid]

/-- C10 witness: over the path `bpt/2020/` the bundle built from `fs5` gets
year `2020`; with the trailing slash the label is the directory name `2020`,
without it the label is the parent name `bpt`. -/
theorem claim_c10_witness :
    bptYear "bpt/2020/" = .ok bEx.year ∧
    bptYear ("bpt" ++ "/" ++ "2020" ++ "/") = .ok "2020" ∧
    bptYear ("bpt" ++ "/" ++ "2020") = .ok (String.mk ("bpt" : String).data) := by
  have h := claim_c10 fs5 "bpt/2020/" "bpt" "2020" bEx [] ("bpt" : String).data
    (by decide) rfl
  exact ⟨h.1 rfl, h.2.1, h.2.2 (by decide)⟩
